import Mathlib

/-!
Shallow embedding of `src/notebooks/sandbox/read_docs.py` (repository Deuces).

The script's observable data are the extractable texts of the input
documents: a PDF is modelled by its list of per-page extracted texts and a
DOCX by its list of per-paragraph texts.  File-system access is modelled by
`Option`: `none` stands for a path that is missing, unreadable, or whose
content does not parse as the expected format, in which case the Python
library call raises.  The module-level statements (lines 29-33) are embedded
as `moduleMain`, which threads the content of the output file explicitly:
`codecs.open(path, "w", "utf-8")` truncates, each `out.write` appends, and
the `with` block flushes what was written so far even when an exception
propagates out of it.
-/

namespace ReadDocs

/-- A PDF document, by the extracted text of each page in document order
(`page.extract_text()` for `page in reader.pages`). -/
structure PdfDoc where
  pages : List String
deriving DecidableEq

/-- A DOCX document, by the text of each paragraph in document order
(`para.text` for `para in doc.paragraphs`). -/
structure DocxDoc where
  paragraphs : List String
deriving DecidableEq

/-- `read_pdf` (lines 17-23): starts from the empty string and appends
`page.extract_text() + '\n'` for every page in order. -/
def read_pdf (doc : PdfDoc) : String :=
  doc.pages.foldl (fun text page => text ++ page ++ "\n") ""

/-- `read_docx` (lines 25-27): `'\n'.join([para.text for para in doc.paragraphs])`. -/
def read_docx (doc : DocxDoc) : String :=
  String.intercalate "\n" doc.paragraphs

/-- The per-page join written in the spec: `T_1 + "\n" + ... + T_N + "\n"`,
a newline after every page including the last. -/
def pagesJoinSpec : List String → String
  | [] => ""
  | t :: ts => t ++ "\n" ++ pagesJoinSpec ts

/-- The per-paragraph join written in the spec: `P_1 + "\n" + ... + "\n" + P_M`,
a single newline between consecutive paragraphs, none leading or trailing. -/
def parasJoinSpec : List String → String
  | [] => ""
  | [p] => p
  | p :: ps => p ++ "\n" ++ parasJoinSpec ps

/-- Separator-prefixed tail join, the loop invariant of `String.intercalate.go`. -/
def sepTail (s : String) : List String → String
  | [] => ""
  | a :: as => s ++ a ++ sepTail s as

/-- The file system seen by the script: the content of the two hardcoded
input paths.  `none` models a path that is missing, unreadable, or whose
content does not parse as the expected document format (the library call
raises in all of these cases). -/
structure Env where
  pdfFile : Option PdfDoc
  docxFile : Option DocxDoc
deriving DecidableEq

/-- The call `read_pdf(path)` including its file access: raises (models as
`Except.error`) exactly when the path has no parseable PDF behind it. -/
def read_pdf_file : Option PdfDoc → Except Unit String
  | some doc => .ok (read_pdf doc)
  | none => .error ()

/-- The call `read_docx(path)` including its file access: raises exactly when
the path has no parseable DOCX behind it. -/
def read_docx_file : Option DocxDoc → Except Unit String
  | some doc => .ok (read_docx doc)
  | none => .error ()

/-- The literal written on line 30. -/
def header1 : String := "=== TEAM PROJECT INSTRUCTIONS ===\n"

/-- The literal written on line 32 — note the leading newline in the source. -/
def header2 : String := "\n=== BASE CASE 1 ===\n"

/-- Outcome of a run: the content of the output file after the process ends
(`none` only if it was never opened), and whether the run finished without
an uncaught exception. -/
structure RunResult where
  output : Option String
  completed : Bool
deriving DecidableEq

/-- The module-level statements, lines 29-33.  `priorOutput` is the content
of the output path before the run (`none` if absent).  `codecs.open(_, "w")`
creates the file and truncates it to empty before anything is read, each
`out.write` appends, and the `with` block closes (hence flushes) the handle
even when an exception propagates, so a failed run leaves the writes made
so far on disk. -/
def moduleMain (env : Env) (priorOutput : Option String) : RunResult :=
  let opened : String := ""
  let afterHeader1 := opened ++ header1
  match read_pdf_file env.pdfFile with
  | .error _ => { output := some afterHeader1, completed := false }
  | .ok pdfText =>
    let afterPdf := afterHeader1 ++ pdfText
    let afterHeader2 := afterPdf ++ header2
    match read_docx_file env.docxFile with
    | .error _ => { output := some afterHeader2, completed := false }
    | .ok docxText => { output := some (afterHeader2 ++ docxText), completed := true }

/-- What lines 29-33 would produce under claim C3's reading: the two header
lines and the two extractor outputs with no other bytes between the four
parts. -/
def claimedOutputC3 (pdf : PdfDoc) (docx : DocxDoc) : String :=
  header1 ++ read_pdf pdf ++ "=== BASE CASE 1 ===\n" ++ read_docx docx

/-- Environment of one third-party library at startup: whether `import`
succeeds directly, whether `pip install` succeeds, and whether `import`
succeeds after a successful install. -/
structure LibEnv where
  importable : Bool
  pipSucceeds : Bool
  importableAfterInstall : Bool
deriving DecidableEq

/-- Outcome of one try/except import block: how many times `pip install` was
invoked, and whether an error propagated uncaught out of the block. -/
structure ImportOutcome where
  installAttempts : Nat
  errored : Bool
deriving DecidableEq

/-- One `try: import lib / except ImportError: check_call(pip install); import lib`
block (lines 5-9 and 11-15).  A failing install (`check_call` raises) or a
failing re-import propagates uncaught; nothing is retried. -/
def ensureLib (lib : LibEnv) : ImportOutcome :=
  if lib.importable then
    { installAttempts := 0, errored := false }
  else if lib.pipSucceeds then
    if lib.importableAfterInstall then
      { installAttempts := 1, errored := false }
    else
      { installAttempts := 1, errored := true }
  else
    { installAttempts := 1, errored := true }

theorem foldl_append_pages (ps : List String) (acc : String) :
    List.foldl (fun text page => text ++ page ++ "\n") acc ps = acc ++ pagesJoinSpec ps := by
  induction ps generalizing acc with
  | nil => simp [pagesJoinSpec]
  | cons t ts ih =>
      rw [List.foldl_cons, ih]
      simp [pagesJoinSpec, String.append_assoc]

theorem intercalate_go_eq (l : List String) (acc s : String) :
    String.intercalate.go acc s l = acc ++ sepTail s l := by
  induction l generalizing acc with
  | nil => simp [String.intercalate.go, sepTail]
  | cons a as ih =>
      simp only [String.intercalate.go, sepTail, ih, String.append_assoc]

theorem parasJoinSpec_cons_eq (as : List String) (a : String) :
    parasJoinSpec (a :: as) = a ++ sepTail "\n" as := by
  induction as generalizing a with
  | nil => simp [parasJoinSpec, sepTail]
  | cons b bs ih =>
      simp only [parasJoinSpec, sepTail, ih, String.append_assoc]

/-- C1: `read_pdf` returns each page's extracted text in document order with a
newline appended after every page, including the last. -/
theorem read_pdf_eq_pagesJoinSpec (pages : List String) :
    read_pdf ⟨pages⟩ = pagesJoinSpec pages := by
  simpa using foldl_append_pages pages ""

/-- C2: `read_docx` returns the paragraph texts in document order joined by a
single newline between consecutive paragraphs, with no leading or trailing
newline added. -/
theorem read_docx_eq_parasJoinSpec (paras : List String) :
    read_docx ⟨paras⟩ = parasJoinSpec paras := by
  cases paras with
  | nil => rfl
  | cons p ps =>
      show String.intercalate.go p "\n" ps = _
      rw [intercalate_go_eq, parasJoinSpec_cons_eq]

theorem header2_split : header2 = "\n" ++ "=== BASE CASE 1 ===\n" := by decide

/-- C3 fails as stated: on a successful run the byte written between the PDF
output and the second header line is a newline (line 32 writes
`"\n=== BASE CASE 1 ===\n"`), so the output is not the four claimed parts
with no other bytes between them.  Shown here on an empty PDF and DOCX. -/
theorem moduleMain_output_ne_claimedOutputC3 :
    (moduleMain ⟨some ⟨[]⟩, some ⟨[]⟩⟩ none).completed = true ∧
    (moduleMain ⟨some ⟨[]⟩, some ⟨[]⟩⟩ none).output ≠
      some (claimedOutputC3 ⟨[]⟩ ⟨[]⟩) := by
  decide

/-- C3 amended: on a successful run the output file consists of exactly the
line `=== TEAM PROJECT INSTRUCTIONS ===`, the PDF-extractor output, one
extra newline, the line `=== BASE CASE 1 ===`, and the DOCX-extractor
output, in this order with no other bytes. -/
theorem moduleMain_output_layout (pdf : PdfDoc) (docx : DocxDoc) (prior : Option String) :
    (moduleMain ⟨some pdf, some docx⟩ prior).output =
      some ("=== TEAM PROJECT INSTRUCTIONS ===\n" ++ read_pdf pdf ++ "\n" ++
        "=== BASE CASE 1 ===\n" ++ read_docx docx) ∧
    (moduleMain ⟨some pdf, some docx⟩ prior).completed = true := by
  refine ⟨?_, rfl⟩
  show some ((("" ++ header1 ++ read_pdf pdf) ++ header2) ++ read_docx docx) = _
  rw [header2_split]
  simp [header1, String.append_assoc]

/-- C4: whenever the run completes, the output file begins with the literal
header `=== TEAM PROJECT INSTRUCTIONS ===` followed by a newline, whatever
the inputs contain. -/
theorem moduleMain_output_starts_with_header1 (env : Env) (prior : Option String)
    (h : (moduleMain env prior).completed = true) :
    ∃ rest, (moduleMain env prior).output =
      some ("=== TEAM PROJECT INSTRUCTIONS ===\n" ++ rest) := by
  rcases env with ⟨pf, df⟩
  cases pf with
  | none => simp [moduleMain, read_pdf_file] at h
  | some pdf =>
      cases df with
      | none => simp [moduleMain, read_pdf_file, read_docx_file] at h
      | some docx =>
          refine ⟨read_pdf pdf ++ header2 ++ read_docx docx, ?_⟩
          show some ((("" ++ header1 ++ read_pdf pdf) ++ header2) ++ read_docx docx) = _
          simp [header1, String.append_assoc]

/-- C4 witness: the header property at a concrete pair of one-page inputs. -/
theorem moduleMain_output_starts_with_header1_witness :
    ∃ rest, (moduleMain ⟨some ⟨["a"]⟩, some ⟨["b"]⟩⟩ none).output =
      some ("=== TEAM PROJECT INSTRUCTIONS ===\n" ++ rest) :=
  moduleMain_output_starts_with_header1 ⟨some ⟨["a"]⟩, some ⟨["b"]⟩⟩ none rfl

/-- C5 fails as stated: `read_pdf` on a zero-page PDF does return the empty
string, but in the output file that empty PDF section is followed by a
newline before `=== BASE CASE 1 ===`, not immediately by the header.  Shown
on a DOCX with one paragraph `x`. -/
theorem empty_pdf_section_not_followed_by_header :
    read_pdf ⟨[]⟩ = "" ∧
    (moduleMain ⟨some ⟨[]⟩, some ⟨["x"]⟩⟩ none).output ≠
      some ("=== TEAM PROJECT INSTRUCTIONS ===\n" ++ "" ++
        "=== BASE CASE 1 ===\n" ++ read_docx ⟨["x"]⟩) := by
  decide

/-- C5 amended: for a PDF with 0 pages, `read_pdf` returns the empty string,
and the PDF section of the output file is an empty string followed by a
newline and then the header line `=== BASE CASE 1 ===`. -/
theorem empty_pdf_section_layout (docx : DocxDoc) (prior : Option String) :
    read_pdf ⟨[]⟩ = "" ∧
    (moduleMain ⟨some ⟨[]⟩, some docx⟩ prior).output =
      some ("=== TEAM PROJECT INSTRUCTIONS ===\n" ++ "" ++ "\n" ++
        "=== BASE CASE 1 ===\n" ++ read_docx docx) := by
  refine ⟨rfl, ?_⟩
  show some ((("" ++ header1 ++ read_pdf ⟨[]⟩) ++ header2) ++ read_docx docx) = _
  rw [header2_split]
  simp [header1, read_pdf, String.append_assoc]

/-- C6 fails as stated: line 29 opens the output path in mode `w` before any
input is read, so with a missing PDF the run still creates/truncates the
output file and writes the first header into it — an existing file is not
left unmodified, and a file is created.  Shown with prior content `old`. -/
theorem missing_pdf_still_truncates_output :
    (moduleMain ⟨none, some ⟨[]⟩⟩ (some "old")).completed = false ∧
    ¬((moduleMain ⟨none, some ⟨[]⟩⟩ (some "old")).output = none ∨
      (moduleMain ⟨none, some ⟨[]⟩⟩ (some "old")).output = some "old") := by
  decide

/-- C6 amended: if the PDF input path does not exist (or is unreadable), the
run terminates with an uncaught error, and the output file is
created/truncated and ends up containing exactly the first header line. -/
theorem missing_pdf_output_is_header1 (env : Env) (prior : Option String)
    (h : env.pdfFile = none) :
    (moduleMain env prior).completed = false ∧
    (moduleMain env prior).output = some "=== TEAM PROJECT INSTRUCTIONS ===\n" := by
  rcases env with ⟨pf, df⟩
  cases h
  exact ⟨rfl, by show some ("" ++ header1) = _; simp [header1]⟩

/-- C6 amended, witness: missing PDF over a prior output file `old`. -/
theorem missing_pdf_output_is_header1_witness :
    (moduleMain ⟨none, none⟩ (some "old")).completed = false ∧
    (moduleMain ⟨none, none⟩ (some "old")).output =
      some "=== TEAM PROJECT INSTRUCTIONS ===\n" :=
  missing_pdf_output_is_header1 ⟨none, none⟩ (some "old") rfl

/-- C7: the pipeline is deterministic in the input documents — the run's
result does not depend on what the output path contained before (mode `w`
truncates), so two runs on byte-identical unchanged inputs, in particular a
re-run over the first run's own output, produce byte-identical results. -/
theorem moduleMain_deterministic (env : Env) (prior1 prior2 : Option String) :
    moduleMain env prior1 = moduleMain env prior2 := rfl

/-- C8: `read_pdf` (resp. `read_docx`) raises exactly when its path has no
parseable PDF (resp. DOCX) behind it, and since nothing is caught or
retried, the run completes exactly when neither input raised. -/
theorem read_errors_propagate (pf : Option PdfDoc) (df : Option DocxDoc)
    (prior : Option String) :
    ((read_pdf_file pf).isOk = false ↔ pf = none) ∧
    ((read_docx_file df).isOk = false ↔ df = none) ∧
    ((moduleMain ⟨pf, df⟩ prior).completed = false ↔ (pf = none ∨ df = none)) := by
  cases pf <;> cases df <;>
    simp [read_pdf_file, read_docx_file, moduleMain, Except.isOk, Except.toBool]

/-- C9: a library that imports directly triggers no install; one that does
not triggers exactly one install-then-reimport attempt, and the block errors
exactly when the library was missing and either the install or the
re-import after it failed. -/
theorem ensureLib_spec (lib : LibEnv) :
    (ensureLib lib).installAttempts = (if lib.importable then 0 else 1) ∧
    (ensureLib lib).errored =
      (!lib.importable && (!lib.pipSucceeds || !lib.importableAfterInstall)) := by
  rcases lib with ⟨i, p, a⟩
  cases i <;> cases p <;> cases a <;> exact ⟨rfl, rfl⟩

/-- C10: for a DOCX with 0 paragraphs, `read_docx` returns the empty string
without raising, the run completes, and the output file ends exactly with
the line `=== BASE CASE 1 ===` followed by a newline and nothing after. -/
theorem empty_docx_output_ends_with_header2 (pdf : PdfDoc) (prior : Option String) :
    read_docx ⟨[]⟩ = "" ∧
    (moduleMain ⟨some pdf, some ⟨[]⟩⟩ prior).output =
      some ("=== TEAM PROJECT INSTRUCTIONS ===\n" ++ read_pdf pdf ++ "\n" ++
        "=== BASE CASE 1 ===\n") ∧
    (moduleMain ⟨some pdf, some ⟨[]⟩⟩ prior).completed = true := by
  refine ⟨rfl, ?_, rfl⟩
  show some ((("" ++ header1 ++ read_pdf pdf) ++ header2) ++ read_docx ⟨[]⟩) = _
  rw [header2_split]
  simp [header1, read_docx, String.intercalate, String.append_empty, String.append_assoc]

end ReadDocs
